import Mathlib

/-!
Verification of the client data layer in src/client/src/state/api.ts:
the response middleware (customBaseQuery), the base-URL resolution
(API_BASE_URL), the endpoint registry, and the optimistic-update flow of
updateUserCourseProgress.  JavaScript values that flow through the
middleware are embedded as a JSON-like inductive type with JavaScript
truthiness; machinery provided by the query-cache library (cache
entries, updateQueryData patches, tag invalidation) is modelled
explicitly where a claim depends on it.
-/

/-! ## JavaScript value model -/

mutual

/-- A JavaScript value as it appears in request bodies and response
payloads: null, booleans, numbers, strings, arrays and plain objects.
Numbers are embedded as integers; no claim depends on float behaviour. -/
inductive JValue where
  | null
  | bool (b : Bool)
  | num (n : Int)
  | str (s : String)
  | arr (elems : JList)
  | obj (fields : JFields)
  deriving DecidableEq

/-- A list of JavaScript values (array elements). -/
inductive JList where
  | nil
  | cons (hd : JValue) (tl : JList)
  deriving DecidableEq

/-- The ordered own fields of a JavaScript object. -/
inductive JFields where
  | nil
  | cons (key : String) (val : JValue) (tl : JFields)
  deriving DecidableEq

end

/-- JavaScript truthiness: null, false, 0 and the empty string are falsy;
every array and object is truthy. -/
def jsTruthy : JValue → Bool
  | JValue.null => false
  | JValue.bool b => b
  | JValue.num n => n != 0
  | JValue.str s => s != ""
  | JValue.arr _ => true
  | JValue.obj _ => true

/-- Whether the value is nullish (JavaScript null; an absent value is
embedded as Option.none instead). -/
def jsNullish : JValue → Bool
  | JValue.null => true
  | _ => false

/-- Look up an object field by key. -/
def JFields.get : JFields → String → Option JValue
  | JFields.nil, _ => none
  | JFields.cons k v tl, key => if k = key then some v else JFields.get tl key

/-- JavaScript property access v.key as the middleware uses it: some value
for an object field that exists, none otherwise (in particular none for
any non-object, matching usage that is either optionally chained or
guarded by a truthiness test in the source). -/
def jsGetField : JValue → String → Option JValue
  | JValue.obj fs, key => JFields.get fs key
  | _, _ => none

/-- Build object fields from a Lean list, for writing concrete values. -/
def JFields.ofList : List (String × JValue) → JFields
  | [] => JFields.nil
  | (k, v) :: tl => JFields.cons k v (JFields.ofList tl)

/-- Convenience constructor for a concrete JavaScript object. -/
def JValue.jobj (l : List (String × JValue)) : JValue :=
  JValue.obj (JFields.ofList l)

mutual

/-- JavaScript string conversion, as performed by template interpolation:
String(null) is "null", numbers print in decimal, arrays join their
elements with commas, plain objects print as [object Object]. -/
def jsToString : JValue → String
  | JValue.null => "null"
  | JValue.bool b => if b then "true" else "false"
  | JValue.num n => toString n
  | JValue.str s => s
  | JValue.arr xs => jsToStringList xs
  | JValue.obj _ => "[object Object]"

/-- Array.prototype.join with separator comma, used by array
stringification. -/
def jsToStringList : JList → String
  | JList.nil => ""
  | JList.cons v JList.nil => jsToStringItem v
  | JList.cons v tl => jsToStringItem v ++ "," ++ jsToStringList tl

/-- One joined element: join renders null as the empty string. -/
def jsToStringItem : JValue → String
  | JValue.null => ""
  | JValue.bool b => if b then "true" else "false"
  | JValue.num n => toString n
  | JValue.str s => s
  | JValue.arr xs => jsToStringList xs
  | JValue.obj _ => "[object Object]"

end

/-! ## Transport model (fetchBaseQuery results and arguments) -/

/-- The status field of a transport error: an HTTP status code, or one of
the string tags the fetch wrapper uses for non-HTTP failures. -/
inductive ErrStatus where
  | code (n : Nat)
  | tag (s : String)
  deriving DecidableEq

/-- JavaScript toString on the status field: decimal for a number, the
string itself for a string tag. -/
def statusToString : ErrStatus → String
  | ErrStatus.code n => toString n
  | ErrStatus.tag s => s

/-- A transport error as produced by fetchBaseQuery: an optional status
and the optional response body. -/
structure FetchError where
  status : Option ErrStatus
  data : Option JValue
  deriving DecidableEq

/-- The object form of query arguments: url, optional method, optional
body and optional query params. -/
structure FetchArgs where
  url : String
  method : Option String
  body : Option JValue
  params : Option (List (String × Option String))
  deriving DecidableEq

/-- Arguments passed to the base query: either a bare url string or a
FetchArgs object. -/
inductive QueryArgs where
  | url (u : String)
  | fetchArgs (fa : FetchArgs)
  deriving DecidableEq

/-- The url of the request descriptor. -/
def QueryArgs.urlOf : QueryArgs → String
  | QueryArgs.url u => u
  | QueryArgs.fetchArgs fa => fa.url

/-- The declared method, exactly as the middleware reads it: a bare url
string has no method field. -/
def QueryArgs.methodOf : QueryArgs → Option String
  | QueryArgs.url _ => none
  | QueryArgs.fetchArgs fa => fa.method

/-- The method actually used on the wire: fetch defaults to GET when no
method is declared. -/
def QueryArgs.effectiveMethod (a : QueryArgs) : String :=
  Option.getD (QueryArgs.methodOf a) "GET"

/-- The declared query params, if any. -/
def QueryArgs.paramsOf : QueryArgs → Option (List (String × Option String))
  | QueryArgs.url _ => none
  | QueryArgs.fetchArgs fa => fa.params

/-- A transport result: either an error (with meta) or a success payload
(with meta), mirroring the success and error shapes of fetchBaseQuery. -/
inductive RawResult where
  | err (e : FetchError) (meta : JValue)
  | ok (d : JValue) (meta : JValue)
  deriving DecidableEq

/-- A notification emitted through the toast library: toast.error is
called with an interpolated string, toast.success with the raw message
value taken from the payload. -/
inductive Toast where
  | error (text : String)
  | success (payload : JValue)
  deriving DecidableEq

/-! ## Response middleware (customBaseQuery, src/client/src/state/api.ts
lines 43 to 73) -/

/-- Line 48 of the source: errorData is the error body coalesced with an
empty object (the nullish-coalescing operator replaces an absent or null
body by an empty object literal). -/
def errorDataOf (e : FetchError) : JValue :=
  match e.data with
  | none => JValue.obj JFields.nil
  | some v => if jsNullish v then JValue.obj JFields.nil else v

/-- Lines 49 and 50, tail of the or-chain: the status converted with
toString when the status exists and its string is truthy, else the
generic fallback text. -/
def statusFallback (e : FetchError) : String :=
  match e.status with
  | none => "An error occurred"
  | some st => if statusToString st != "" then statusToString st else "An error occurred"

/-- Lines 49 and 50: errorMessage is errorData.message when truthy, else
the status string when truthy, else the generic fallback.  The chosen
value is interpolated into the toast template, hence the string
conversion on the message value. -/
def errorMessage (e : FetchError) : String :=
  match jsGetField (errorDataOf e) "message" with
  | some m => if jsTruthy m then jsToString m else statusFallback e
  | none => statusFallback e

/-- Whether the declared method passes the guard on lines 58 and 59: the
method field is truthy (a non-empty string) and differs from GET. -/
def methodNonGet : Option String → Bool
  | some m => m != "" && m != "GET"
  | none => false

/-- Lines 55 to 65: on a success result, when the declared method is
truthy and not GET and the payload has a truthy message field, emit one
success toast carrying that message value; otherwise emit nothing. -/
def successToasts (args : QueryArgs) (d : JValue) : List Toast :=
  if methodNonGet (QueryArgs.methodOf args) then
    match jsGetField d "message" with
    | some mv => if jsTruthy mv then [Toast.success mv] else []
    | none => []
  else []

/-- Lines 67 to 72: when the payload is truthy and its data field is
truthy, return the result with the payload replaced by that nested value
and every other field (the meta) spread through unchanged; otherwise
return the result as it is. -/
def normalizeData (d : JValue) (meta : JValue) : RawResult :=
  if jsTruthy d then
    match jsGetField d "data" with
    | some nested =>
        if jsTruthy nested then RawResult.ok nested meta else RawResult.ok d meta
    | none => RawResult.ok d meta
  else RawResult.ok d meta

/-- The middleware, lines 43 to 73, as a function of the arguments and of
the transport result returned by rawBaseQuery: it yields the result
handed to the caller together with the list of toasts emitted during the
call.  On an error result (the error field is present and, being an
object, truthy) it emits exactly one error toast built from the template
and returns the error result itself; on a success result it emits the
success toasts of lines 55 to 65 and returns the normalized result of
lines 67 to 72. -/
def customBaseQuery (args : QueryArgs) (result : RawResult) : RawResult × List Toast :=
  match result with
  | RawResult.err e meta =>
      (RawResult.err e meta, [Toast.error ("Error: " ++ errorMessage e)])
  | RawResult.ok d meta =>
      (normalizeData d meta, successToasts args d)

/-! ## Base URL resolution (lines 23 to 27) -/

/-- The browser location fields the source reads: window.location.protocol
(which includes the trailing colon) and window.location.hostname. -/
structure WindowLocation where
  protocol : String
  hostname : String
  deriving DecidableEq

/-- Lines 23 to 27: the configured environment value when set (nullish
coalescing, so even an empty string counts as set), else the page
protocol and hostname with port 8001 when a window exists, else the
localhost default. -/
def API_BASE_URL (envBaseUrl : Option String) (windowLoc : Option WindowLocation) : String :=
  match envBaseUrl with
  | some v => v
  | none =>
      match windowLoc with
      | some w => w.protocol ++ "//" ++ w.hostname ++ ":8001"
      | none => "http://localhost:8001"

/-! ## Endpoint registry (lines 78 to 210): request builders and tags -/

/-- The three tag types declared on line 81 of the source. -/
inductive TagType where
  | Courses
  | Users
  | UserCourseProgress
  deriving DecidableEq

/-- A cache tag: a tag type with an optional entity id.  A plain string
tag in the source is a tag type with no id. -/
structure Tag where
  type : TagType
  id : Option String
  deriving DecidableEq

/-- Line 81: tagTypes of the api. -/
def api_tagTypes : List TagType :=
  [TagType.Courses, TagType.Users, TagType.UserCourseProgress]

/-- Lines 84 to 91, updateUser: PUT users/clerk/userId with the remaining
fields of the argument as body; invalidates Users. -/
def updateUser_query (userId : String) (updatedUser : JValue) : QueryArgs :=
  QueryArgs.fetchArgs (FetchArgs.mk ("users/clerk/" ++ userId) (some "PUT") (some updatedUser) none)

/-- Lines 84 to 91: tags invalidated by updateUser. -/
def updateUser_invalidatesTags : List Tag :=
  [Tag.mk TagType.Users none]

/-- Lines 94 to 100, getCourses: url courses with a category query param
and no declared method; provides Courses. -/
def getCourses_query (category : Option String) : QueryArgs :=
  QueryArgs.fetchArgs (FetchArgs.mk "courses" none none (some [("category", category)]))

/-- Lines 94 to 100: tags provided by getCourses. -/
def getCourses_providesTags : List Tag :=
  [Tag.mk TagType.Courses none]

/-- Lines 102 to 105, getCourse: a bare url string courses/id; provides
the Courses tag scoped to that id. -/
def getCourse_query (id : String) : QueryArgs :=
  QueryArgs.url ("courses/" ++ id)

/-- Lines 102 to 105: tags provided by getCourse for a given id. -/
def getCourse_providesTags (id : String) : List Tag :=
  [Tag.mk TagType.Courses (some id)]

/-- Lines 107 to 114, createCourse: POST courses with the argument object
as body; invalidates Courses. -/
def createCourse_query (teacherId : String) (teacherName : String) : QueryArgs :=
  QueryArgs.fetchArgs (FetchArgs.mk "courses" (some "POST")
    (some (JValue.jobj [("teacherId", JValue.str teacherId), ("teacherName", JValue.str teacherName)])) none)

/-- Lines 107 to 114: tags invalidated by createCourse. -/
def createCourse_invalidatesTags : List Tag :=
  [Tag.mk TagType.Courses none]

/-- Lines 116 to 125, updateCourse: PUT courses/courseId with the form
data as body; invalidates the Courses tag scoped to courseId. -/
def updateCourse_query (courseId : String) (formData : JValue) : QueryArgs :=
  QueryArgs.fetchArgs (FetchArgs.mk ("courses/" ++ courseId) (some "PUT") (some formData) none)

/-- Lines 116 to 125: tags invalidated by updateCourse for a courseId. -/
def updateCourse_invalidatesTags (courseId : String) : List Tag :=
  [Tag.mk TagType.Courses (some courseId)]

/-- Lines 127 to 133, deleteCourse: DELETE courses/courseId with no body;
invalidates Courses. -/
def deleteCourse_query (courseId : String) : QueryArgs :=
  QueryArgs.fetchArgs (FetchArgs.mk ("courses/" ++ courseId) (some "DELETE") none none)

/-- Lines 127 to 133: tags invalidated by deleteCourse. -/
def deleteCourse_invalidatesTags : List Tag :=
  [Tag.mk TagType.Courses none]

/-- Lines 135 to 144, getUploadVideoUrl: POST to the get-upload-url path
under the chapter, with fileName and fileType as body; no tags. -/
def getUploadVideoUrl_query (courseId sectionId chapterId fileName fileType : String) : QueryArgs :=
  QueryArgs.fetchArgs (FetchArgs.mk
    ("courses/" ++ courseId ++ "/sections/" ++ sectionId ++ "/chapters/" ++ chapterId ++ "/get-upload-url")
    (some "POST")
    (some (JValue.jobj [("fileName", JValue.str fileName), ("fileType", JValue.str fileType)]))
    none)

/-- Lines 135 to 144: getUploadVideoUrl declares no tags. -/
def getUploadVideoUrl_tags : List Tag := []

/-- Lines 147 to 149, getTransactions: a bare url string with the userId
query appended; no tags. -/
def getTransactions_query (userId : String) : QueryArgs :=
  QueryArgs.url ("transactions?userId=" ++ userId)

/-- Lines 147 to 149: getTransactions declares no tags. -/
def getTransactions_tags : List Tag := []

/-- Lines 151 to 157, createStripePaymentIntent: POST with the amount as
body.  The url literal in the source carries a leading slash. -/
def createStripePaymentIntent_query (amount : Int) : QueryArgs :=
  QueryArgs.fetchArgs (FetchArgs.mk "/transactions/stripe/payment-intent" (some "POST")
    (some (JValue.jobj [("amount", JValue.num amount)])) none)

/-- Lines 151 to 157: createStripePaymentIntent declares no tags. -/
def createStripePaymentIntent_tags : List Tag := []

/-- Lines 159 to 165, createTransaction: POST transactions with the
transaction argument as body; no tags. -/
def createTransaction_query (transaction : JValue) : QueryArgs :=
  QueryArgs.fetchArgs (FetchArgs.mk "transactions" (some "POST") (some transaction) none)

/-- Lines 159 to 165: createTransaction declares no tags. -/
def createTransaction_tags : List Tag := []

/-- Lines 168 to 171, getUserEnrolledCourses: bare url string; provides
Courses and UserCourseProgress. -/
def getUserEnrolledCourses_query (userId : String) : QueryArgs :=
  QueryArgs.url ("users/course-progress/" ++ userId ++ "/enrolled-courses")

/-- Lines 168 to 171: tags provided by getUserEnrolledCourses. -/
def getUserEnrolledCourses_providesTags : List Tag :=
  [Tag.mk TagType.Courses none, Tag.mk TagType.UserCourseProgress none]

/-- Lines 173 to 177, getUserCourseProgress: bare url string; provides
UserCourseProgress. -/
def getUserCourseProgress_query (userId courseId : String) : QueryArgs :=
  QueryArgs.url ("users/course-progress/" ++ userId ++ "/courses/" ++ courseId)

/-- Lines 173 to 177: tags provided by getUserCourseProgress. -/
def getUserCourseProgress_providesTags : List Tag :=
  [Tag.mk TagType.UserCourseProgress none]

/-- Lines 179 to 188, updateUserCourseProgress: PUT to the same progress
path with the progress data as body; invalidates UserCourseProgress. -/
def updateUserCourseProgress_query (userId courseId : String) (progressData : JValue) : QueryArgs :=
  QueryArgs.fetchArgs (FetchArgs.mk
    ("users/course-progress/" ++ userId ++ "/courses/" ++ courseId)
    (some "PUT") (some progressData) none)

/-- Lines 179 to 188: tags invalidated by updateUserCourseProgress. -/
def updateUserCourseProgress_invalidatesTags : List Tag :=
  [Tag.mk TagType.UserCourseProgress none]

/-! ## Cache state for getUserCourseProgress and the optimistic update
(lines 189 to 207) -/

/-- The query-cache for the getUserCourseProgress endpoint: an
association list from the (userId, courseId) key to the cached progress
object (its fields). -/
abbrev ProgressCache : Type :=
  List ((String × String) × JFields)

/-- Read the cached entry for a key. -/
def cacheGet : ProgressCache → (String × String) → Option JFields
  | [], _ => none
  | (k, v) :: tl, key => if k = key then some v else cacheGet tl key

/-- Replace the cached entry for a key that is present; leaves the cache
unchanged when the key is absent. -/
def cacheSet : ProgressCache → (String × String) → JFields → ProgressCache
  | [], _, _ => []
  | (k, v) :: tl, key, w => if k = key then (k, w) :: tl else (k, v) :: cacheSet tl key w

/-- Set one field of an object, in place when the key already exists,
appended otherwise — the effect of Object.assign of the draft spread with
one overwritten field on line 198 of the source. -/
def JFields.setField : JFields → String → JValue → JFields
  | JFields.nil, key, w => JFields.cons key w JFields.nil
  | JFields.cons k v tl, key, w =>
      if k = key then JFields.cons k w tl else JFields.cons k v (JFields.setField tl key w)

/-- Modelled from the spec: the updateQueryData primitive of the
query-cache library (the library itself is not under src/).  Per the
spec, it applies the recipe to the cached entry for the key and returns
an undo handle restoring the prior value; when no cache entry exists for
the key the patch is a no-op and the handle undoes nothing.  The handle
is the snapshot of the prior entry, or none when no entry existed. -/
def updateQueryData (key : String × String) (recipe : JFields → JFields)
    (cache : ProgressCache) : ProgressCache × Option JFields :=
  match cacheGet cache key with
  | some entry => (cacheSet cache key (recipe entry), some entry)
  | none => (cache, none)

/-- Modelled from the spec: undoing a patch handle restores the snapshot
it recorded; a handle that recorded nothing changes nothing. -/
def patchUndo (key : String × String) (handle : Option JFields)
    (cache : ProgressCache) : ProgressCache :=
  match handle with
  | some old => cacheSet cache key old
  | none => cache

/-- Line 198 of the source: the recipe passed to updateQueryData replaces
the sections field of the draft with the sections from the call
arguments (Object.assign of the draft with itself spread and sections
overwritten) and keeps every other field. -/
def updateUserCourseProgress_recipe (sections : JValue) (draft : JFields) : JFields :=
  JFields.setField draft "sections" sections

/-- Lines 193 to 201 of onQueryStarted: dispatch the optimistic patch for
the (userId, courseId) key, yielding the pending cache and the patch
handle. -/
def updateUserCourseProgress_onQueryStarted (userId courseId : String) (sections : JValue)
    (cache : ProgressCache) : ProgressCache × Option JFields :=
  updateQueryData (userId, courseId) (updateUserCourseProgress_recipe sections) cache

/-- Lines 202 to 206 of onQueryStarted: when the awaited network call
succeeds the patch is left in place; on any failure the patch handle is
undone. -/
def updateUserCourseProgress_resolve (userId courseId : String) (handle : Option JFields)
    (success : Bool) (cache : ProgressCache) : ProgressCache :=
  if success then cache else patchUndo (userId, courseId) handle cache

/-! ## Tag invalidation (library-provided cache layer) -/

/-- Modelled from the spec: one cache entry of the tag layer, with its
key, the tags it is registered under, whether a query is currently
subscribed to it, and its cached data. -/
structure CacheEntry where
  key : String
  tags : List Tag
  subscribed : Bool
  data : JValue
  deriving DecidableEq

/-- Whether an invalidation of the tag hits this entry: a query is
subscribed to it and it carries the tag. -/
def hitsTag (t : Tag) (e : CacheEntry) : Bool :=
  e.subscribed && e.tags.contains t

/-- Refetch an entry hit by an invalidated tag: its data is replaced by
the server value for its key; an entry not hit is untouched. -/
def refetchEntry (server : String → JValue) (t : Tag) (e : CacheEntry) : CacheEntry :=
  if hitsTag t e then CacheEntry.mk e.key e.tags e.subscribed (server e.key) else e

/-- Modelled from the spec: tag invalidation in the query-cache library
(not under src/).  Per the spec, every subscribed cache entry carrying
the invalidated tag is refetched (its data replaced by the server value
for its key), and invalidating a tag with no subscribed queries is a
no-op.  Returns the new cache state together with the keys of the
entries refetched. -/
def invalidateTag (server : String → JValue) (t : Tag) (entries : List CacheEntry) :
    List CacheEntry × List String :=
  (entries.map (refetchEntry server t),
   (entries.filter (hitsTag t)).map CacheEntry.key)

/-! ## Helper lemmas -/

/-- A value with a readable field is an object, hence truthy. -/
theorem jsGetField_truthy (d : JValue) (key : String) (v : JValue)
    (h : jsGetField d key = some v) : jsTruthy d = true := by
  cases d <;> simp_all [jsGetField, jsTruthy]

/-- Normalization unwraps a truthy nested data field. -/
theorem normalizeData_unwrap (d v meta : JValue)
    (h : jsGetField d "data" = some v) (hv : jsTruthy v = true) :
    normalizeData d meta = RawResult.ok v meta := by
  unfold normalizeData
  rw [jsGetField_truthy d "data" v h]
  simp [h, hv]

/-- Normalization keeps the payload when no truthy nested data field
exists. -/
theorem normalizeData_keep (d meta : JValue)
    (h : ∀ v, jsGetField d "data" = some v → jsTruthy v = false) :
    normalizeData d meta = RawResult.ok d meta := by
  unfold normalizeData
  cases hd : jsGetField d "data" with
  | none => cases jsTruthy d <;> simp
  | some v =>
      have hv := h v hd
      cases jsTruthy d <;> simp [hv]

/-- Reading a key just written by cacheSet yields the written value, as
long as the key was present. -/
theorem cacheGet_cacheSet_self (c : ProgressCache) (k : String × String) (e w : JFields)
    (h : cacheGet c k = some e) : cacheGet (cacheSet c k w) k = some w := by
  induction c with
  | nil => simp [cacheGet] at h
  | cons hd tl ih =>
      obtain ⟨k0, v0⟩ := hd
      by_cases hk : k0 = k
      · simp [cacheGet, cacheSet, hk]
      · simp [cacheGet, cacheSet, hk] at h ⊢
        exact ih h

/-- Writing back the value a key already holds changes nothing. -/
theorem cacheSet_of_get_eq (c : ProgressCache) (k : String × String) (e : JFields)
    (h : cacheGet c k = some e) : cacheSet c k e = c := by
  induction c with
  | nil => simp [cacheGet] at h
  | cons hd tl ih =>
      obtain ⟨k0, v0⟩ := hd
      by_cases hk : k0 = k
      · simp [cacheGet, hk] at h
        simp [cacheSet, hk, h]
      · simp [cacheGet, hk] at h
        simp [cacheSet, hk, ih h]

/-- Two writes to the same key collapse to the last one. -/
theorem cacheSet_cacheSet (c : ProgressCache) (k : String × String) (v w : JFields) :
    cacheSet (cacheSet c k v) k w = cacheSet c k w := by
  induction c with
  | nil => simp [cacheSet]
  | cons hd tl ih =>
      obtain ⟨k0, v0⟩ := hd
      by_cases hk : k0 = k
      · simp [cacheSet, hk]
      · simp [cacheSet, hk, ih]

/-- Setting a field then reading it yields the new value. -/
theorem JFields.get_setField_self : (fs : JFields) → (key : String) → (w : JValue) →
    JFields.get (JFields.setField fs key w) key = some w
  | JFields.nil, key, w => by simp [JFields.setField, JFields.get]
  | JFields.cons k v tl, key, w => by
      by_cases hk : k = key
      · simp [JFields.setField, JFields.get, hk]
      · simp [JFields.setField, JFields.get, hk]
        exact JFields.get_setField_self tl key w

/-- When no truthy message field exists, errorMessage falls through to
the status part of the or-chain. -/
theorem errorMessage_fallback (e : FetchError)
    (hall : ∀ m, jsGetField (errorDataOf e) "message" = some m → jsTruthy m = false) :
    errorMessage e = statusFallback e := by
  cases hm : jsGetField (errorDataOf e) "message" with
  | none => simp [errorMessage, hm]
  | some m => simp [errorMessage, hm, hall m hm]

/-- Refetching keeps the key of an entry. -/
theorem refetchEntry_key (server : String → JValue) (t : Tag) (e : CacheEntry) :
    (refetchEntry server t e).key = e.key := by
  unfold refetchEntry
  cases h : hitsTag t e <;> simp

/-- Refetching an entry does not change whether an invalidation hits it. -/
theorem hitsTag_refetchEntry (server : String → JValue) (t : Tag) (e : CacheEntry) :
    hitsTag t (refetchEntry server t e) = hitsTag t e := by
  unfold refetchEntry
  cases h : hitsTag t e
  · simp only [Bool.false_eq_true, if_false]
    exact h
  · simp only [if_true]
    exact h

/-- Refetching twice against the same server is the same as once. -/
theorem refetchEntry_idem (server : String → JValue) (t : Tag) (e : CacheEntry) :
    refetchEntry server t (refetchEntry server t e) = refetchEntry server t e := by
  cases h : hitsTag t e
  · have he : refetchEntry server t e = e := by unfold refetchEntry; simp [h]
    rw [he]
    exact he
  · have he : refetchEntry server t e = CacheEntry.mk e.key e.tags e.subscribed (server e.key) := by
      unfold refetchEntry; simp [h]
    rw [he]
    have h2 : hitsTag t (CacheEntry.mk e.key e.tags e.subscribed (server e.key)) = true := h
    unfold refetchEntry
    simp [h2]

/-- An entry no subscribed query holds under the tag is not hit. -/
theorem hitsTag_false_of_noSub (t : Tag) (e : CacheEntry)
    (h : e.subscribed = true → e.tags.contains t = false) : hitsTag t e = false := by
  unfold hitsTag
  cases hs : e.subscribed
  · rfl
  · rw [h hs]
    rfl

/-- Invalidating a tag no subscribed query carries leaves every entry
untouched. -/
theorem invalidateTag_map_noop (server : String → JValue) (t : Tag) :
    ∀ entries : List CacheEntry,
      (∀ e ∈ entries, e.subscribed = true → e.tags.contains t = false) →
      List.map (refetchEntry server t) entries = entries
  | [], _ => rfl
  | e :: tl, h => by
      have hcond : hitsTag t e = false :=
        hitsTag_false_of_noSub t e (h e (List.mem_cons_self e tl))
      have he : refetchEntry server t e = e := by unfold refetchEntry; simp [hcond]
      simp only [List.map_cons, he]
      rw [invalidateTag_map_noop server t tl (fun x hx => h x (List.mem_cons_of_mem e hx))]

/-- Invalidating a tag no subscribed query carries refetches nothing. -/
theorem invalidateTag_filter_noop (t : Tag) :
    ∀ entries : List CacheEntry,
      (∀ e ∈ entries, e.subscribed = true → e.tags.contains t = false) →
      List.filter (hitsTag t) entries = []
  | [], _ => rfl
  | e :: tl, h => by
      have hcond : hitsTag t e = false :=
        hitsTag_false_of_noSub t e (h e (List.mem_cons_self e tl))
      simp only [List.filter_cons, hcond, Bool.false_eq_true, if_false]
      exact invalidateTag_filter_noop t tl (fun x hx => h x (List.mem_cons_of_mem e hx))

/-- The refetch set computed after one invalidation is the refetch set of
the invalidation itself. -/
theorem invalidateTag_filter_map (server : String → JValue) (t : Tag) :
    ∀ entries : List CacheEntry,
      List.map CacheEntry.key (List.filter (hitsTag t) (List.map (refetchEntry server t) entries))
        = List.map CacheEntry.key (List.filter (hitsTag t) entries)
  | [] => rfl
  | e :: tl => by
      cases h : hitsTag t e
      · have h1 : hitsTag t (refetchEntry server t e) = false := by
          rw [hitsTag_refetchEntry]; exact h
        simp only [List.map_cons, List.filter_cons, h1, h, Bool.false_eq_true, if_false]
        exact invalidateTag_filter_map server t tl
      · have h1 : hitsTag t (refetchEntry server t e) = true := by
          rw [hitsTag_refetchEntry]; exact h
        simp only [List.map_cons, List.filter_cons, h1, h, if_true]
        rw [refetchEntry_key, invalidateTag_filter_map server t tl]

/-- Applying the refetch map twice equals applying it once. -/
theorem invalidateTag_map_idem (server : String → JValue) (t : Tag) :
    ∀ entries : List CacheEntry,
      List.map (refetchEntry server t) (List.map (refetchEntry server t) entries)
        = List.map (refetchEntry server t) entries
  | [] => rfl
  | e :: tl => by
      simp only [List.map_cons, refetchEntry_idem]
      rw [invalidateTag_map_idem server t tl]

/-! ## The claims -/

/-- Claim C9: tag invalidation is idempotent.  Invalidating a tag that no
subscribed query carries changes no cache entry and refetches nothing;
invalidating the same tag twice in a row refetches the same set of
entries as invalidating it once, and the second invalidation leaves the
cache state of the first unchanged.  (The tag layer is library-provided
and modelled from the spec; the tags themselves are the ones the
registry declares over api_tagTypes.) -/
theorem claim_C9_invalidation_idempotent (server : String → JValue) (t : Tag)
    (entries : List CacheEntry) :
    ((∀ e ∈ entries, e.subscribed = true → e.tags.contains t = false) →
        (invalidateTag server t entries).1 = entries
      ∧ (invalidateTag server t entries).2 = [])
  ∧ (invalidateTag server t (invalidateTag server t entries).1).2
      = (invalidateTag server t entries).2
  ∧ (invalidateTag server t (invalidateTag server t entries).1).1
      = (invalidateTag server t entries).1 := by
  refine ⟨?_, ?_, ?_⟩
  · intro h
    constructor
    · exact invalidateTag_map_noop server t entries h
    · show List.map CacheEntry.key (List.filter (hitsTag t) entries) = []
      rw [invalidateTag_filter_noop t entries h]
      rfl
  · exact invalidateTag_filter_map server t entries
  · exact invalidateTag_map_idem server t entries

/-- Claim C9 witness: a cache holding one subscribed Courses entry; a
Users invalidation refetches nothing and changes nothing. -/
theorem claim_C9_witness :
    (invalidateTag (fun _ => JValue.null) (Tag.mk TagType.Users none)
        [CacheEntry.mk "getCourses" [Tag.mk TagType.Courses none] true JValue.null]).1
      = [CacheEntry.mk "getCourses" [Tag.mk TagType.Courses none] true JValue.null]
  ∧ (invalidateTag (fun _ => JValue.null) (Tag.mk TagType.Users none)
        [CacheEntry.mk "getCourses" [Tag.mk TagType.Courses none] true JValue.null]).2
      = [] :=
  (claim_C9_invalidation_idempotent (fun _ => JValue.null) (Tag.mk TagType.Users none)
      [CacheEntry.mk "getCourses" [Tag.mk TagType.Courses none] true JValue.null]).1
    (by decide)

/-- Claim C1, counterexample: the payload is an object containing a
nested data field whose value is 0; the claim asserts the middleware
delivers the nested 0, but the source only unwraps a truthy nested data
field, so the wrapper object is delivered unchanged. -/
theorem claim_C1_counterexample :
    (customBaseQuery (QueryArgs.url "courses/c1")
        (RawResult.ok (JValue.jobj [("data", JValue.num 0)]) JValue.null)).1
      = RawResult.ok (JValue.jobj [("data", JValue.num 0)]) JValue.null
  ∧ (customBaseQuery (QueryArgs.url "courses/c1")
        (RawResult.ok (JValue.jobj [("data", JValue.num 0)]) JValue.null)).1
      ≠ RawResult.ok (JValue.num 0) JValue.null := by
  decide

/-- Claim C1 (amended): for every successful transport result whose
payload has a nested data field with a truthy value, the middleware
delivers exactly that nested value; every other successful payload,
including objects whose data field holds a falsy value, is delivered
unchanged. -/
theorem claim_C1_envelope_unwrap (args : QueryArgs) (d meta : JValue) :
    (∀ v, jsGetField d "data" = some v → jsTruthy v = true →
        (customBaseQuery args (RawResult.ok d meta)).1 = RawResult.ok v meta)
  ∧ ((∀ v, jsGetField d "data" = some v → jsTruthy v = false) →
        (customBaseQuery args (RawResult.ok d meta)).1 = RawResult.ok d meta) := by
  constructor
  · intro v hv htv
    exact normalizeData_unwrap d v meta hv htv
  · intro hall
    exact normalizeData_keep d meta hall

/-- Claim C1 witness: a wrapped string payload is unwrapped; the claim
theorem applied at a concrete wrapped course object. -/
theorem claim_C1_witness :
    (customBaseQuery (QueryArgs.url "courses/c1")
        (RawResult.ok (JValue.jobj [("data", JValue.str "x")]) JValue.null)).1
      = RawResult.ok (JValue.str "x") JValue.null :=
  (claim_C1_envelope_unwrap (QueryArgs.url "courses/c1")
      (JValue.jobj [("data", JValue.str "x")]) JValue.null).1
    (JValue.str "x") (by decide) (by decide)

/-- Claim C10: when the middleware unwraps a success envelope, the meta
field of the transport result is carried over unchanged; only the data
field is replaced by the nested value. -/
theorem claim_C10_unwrap_frame (args : QueryArgs) (d v meta : JValue)
    (h : jsGetField d "data" = some v) (hv : jsTruthy v = true) :
    (customBaseQuery args (RawResult.ok d meta)).1 = RawResult.ok v meta :=
  normalizeData_unwrap d v meta h hv

/-- Claim C10 witness: the claim theorem at a concrete wrapped payload
with a distinguished meta value, which survives the unwrap. -/
theorem claim_C10_witness :
    (customBaseQuery (QueryArgs.url "courses/c1")
        (RawResult.ok (JValue.jobj [("data", JValue.str "payload")]) (JValue.str "meta1"))).1
      = RawResult.ok (JValue.str "payload") (JValue.str "meta1") :=
  claim_C10_unwrap_frame (QueryArgs.url "courses/c1")
    (JValue.jobj [("data", JValue.str "payload")]) (JValue.str "payload") (JValue.str "meta1")
    (by decide) (by decide)

/-- Claim C2, counterexample: the error body carries a message field
holding the empty string; the claim asserts the notification uses the
server message whenever the field is present, but the source tests
truthiness, so the status string 500 is used instead of the empty
message. -/
theorem claim_C2_counterexample :
    (customBaseQuery (QueryArgs.url "transactions")
        (RawResult.err (FetchError.mk (some (ErrStatus.code 500))
          (some (JValue.jobj [("message", JValue.str "")]))) JValue.null)).2
      = [Toast.error "Error: 500"]
  ∧ (customBaseQuery (QueryArgs.url "transactions")
        (RawResult.err (FetchError.mk (some (ErrStatus.code 500))
          (some (JValue.jobj [("message", JValue.str "")]))) JValue.null)).2
      ≠ [Toast.error "Error: "] := by
  decide

/-- Claim C2 (amended): for every error result exactly one error
notification is emitted, with text Error: followed by a message chosen
in this precedence: the server message field when present and truthy
(non-empty), else the status converted to a string when present and
non-empty, else the generic fallback An error occurred. -/
theorem claim_C2_error_toast (args : QueryArgs) (e : FetchError) (meta : JValue) :
    (customBaseQuery args (RawResult.err e meta)).2
      = [Toast.error ("Error: " ++ errorMessage e)]
  ∧ (∀ m, jsGetField (errorDataOf e) "message" = some m → jsTruthy m = true →
        errorMessage e = jsToString m)
  ∧ ((∀ m, jsGetField (errorDataOf e) "message" = some m → jsTruthy m = false) →
      ∀ st, e.status = some st → statusToString st ≠ "" →
        errorMessage e = statusToString st)
  ∧ ((∀ m, jsGetField (errorDataOf e) "message" = some m → jsTruthy m = false) →
      (e.status = none ∨ ∃ st, e.status = some st ∧ statusToString st = "") →
        errorMessage e = "An error occurred") := by
  refine ⟨rfl, ?_, ?_, ?_⟩
  · intro m hm htm
    simp [errorMessage, hm, htm]
  · intro hall st hst hne
    rw [errorMessage_fallback e hall]
    simp [statusFallback, hst, hne]
  · intro hall hst
    rw [errorMessage_fallback e hall]
    rcases hst with h | ⟨st, hst, hz⟩
    · simp [statusFallback, h]
    · simp [statusFallback, hst, hz]

/-- Claim C2 witness: a 404 error carrying a truthy server message boom
produces exactly the toast Error: boom; the claim theorem applied at
that concrete error. -/
theorem claim_C2_witness :
    errorMessage (FetchError.mk (some (ErrStatus.code 404))
        (some (JValue.jobj [("message", JValue.str "boom")]))) = "boom"
  ∧ (customBaseQuery (QueryArgs.url "courses/c1")
        (RawResult.err (FetchError.mk (some (ErrStatus.code 404))
          (some (JValue.jobj [("message", JValue.str "boom")]))) JValue.null)).2
      = [Toast.error "Error: boom"] := by
  have h := claim_C2_error_toast (QueryArgs.url "courses/c1")
    (FetchError.mk (some (ErrStatus.code 404))
      (some (JValue.jobj [("message", JValue.str "boom")]))) JValue.null
  have hm := h.2.1 (JValue.str "boom") (by decide) (by decide)
  refine ⟨hm, ?_⟩
  rw [h.1, hm]
  decide

/-- Claim C4, counterexample: a successful DELETE whose payload carries a
message field holding the empty string; the claim asserts a success
notification carrying that message, but the source tests truthiness and
emits nothing. -/
theorem claim_C4_counterexample :
    (customBaseQuery (deleteCourse_query "c1")
        (RawResult.ok (JValue.jobj [("message", JValue.str "")]) JValue.null)).2 = []
  ∧ (customBaseQuery (deleteCourse_query "c1")
        (RawResult.ok (JValue.jobj [("message", JValue.str "")]) JValue.null)).2
      ≠ [Toast.success (JValue.str "")] := by
  decide

/-- Claim C4 (amended): for every successful result of a call whose
descriptor declares a non-empty method other than GET, if the payload
carries a truthy (non-empty) message field then exactly one success
notification carrying exactly that message value is emitted; for calls
declaring GET, or built from a bare url string (hence read calls with no
method field), no success notification is ever emitted, whatever the
payload. -/
theorem claim_C4_success_toast (d meta : JValue) :
    (∀ u m b p mv, m ≠ "" → m ≠ "GET" →
        jsGetField d "message" = some mv → jsTruthy mv = true →
        (customBaseQuery (QueryArgs.fetchArgs (FetchArgs.mk u (some m) b p))
            (RawResult.ok d meta)).2
          = [Toast.success mv])
  ∧ (∀ u b p, (customBaseQuery (QueryArgs.fetchArgs (FetchArgs.mk u (some "GET") b p))
        (RawResult.ok d meta)).2 = [])
  ∧ (∀ u, (customBaseQuery (QueryArgs.url u) (RawResult.ok d meta)).2 = []) := by
  refine ⟨?_, ?_, ?_⟩
  · intro u m b p mv hm hmg hmsg htm
    simp [customBaseQuery, successToasts, methodNonGet, QueryArgs.methodOf, hm, hmg, hmsg, htm]
  · intro u b p
    simp [customBaseQuery, successToasts, methodNonGet, QueryArgs.methodOf]
  · intro u
    simp [customBaseQuery, successToasts, methodNonGet, QueryArgs.methodOf]

/-- Claim C4 witness: the delete-course call succeeding with message
deleted emits exactly one success toast carrying deleted; the claim
theorem applied at that concrete call. -/
theorem claim_C4_witness :
    (customBaseQuery (deleteCourse_query "c1")
        (RawResult.ok (JValue.jobj [("message", JValue.str "deleted")]) JValue.null)).2
      = [Toast.success (JValue.str "deleted")] :=
  (claim_C4_success_toast (JValue.jobj [("message", JValue.str "deleted")]) JValue.null).1
    ("courses/" ++ "c1") "DELETE" none none (JValue.str "deleted")
    (by decide) (by decide) (by decide) (by decide)

/-- Claim C5: for every error result the middleware returns the error
result unchanged (same error, same meta, no envelope unwrap), and every
notification emitted on the error path is an error notification — no
success toast is ever emitted there. -/
theorem claim_C5_error_passthrough (args : QueryArgs) (e : FetchError) (meta : JValue) :
    (customBaseQuery args (RawResult.err e meta)).1 = RawResult.err e meta
  ∧ ∀ t ∈ (customBaseQuery args (RawResult.err e meta)).2, ∃ s, t = Toast.error s := by
  refine ⟨rfl, ?_⟩
  intro t ht
  simp [customBaseQuery] at ht
  exact ⟨"Error: " ++ errorMessage e, ht⟩

/-- Claim C5 witness: the claim theorem at a concrete bodiless error:
the result is returned untouched and the only toast is an error toast. -/
theorem claim_C5_witness :
    (customBaseQuery (QueryArgs.url "transactions")
        (RawResult.err (FetchError.mk none none) JValue.null)).1
      = RawResult.err (FetchError.mk none none) JValue.null
  ∧ ∃ s, Toast.error "Error: An error occurred" = Toast.error s := by
  have h := claim_C5_error_passthrough (QueryArgs.url "transactions")
    (FetchError.mk none none) JValue.null
  exact ⟨h.1, h.2 (Toast.error "Error: An error occurred") (by decide)⟩

/-- Claim C8: the base URL is the environment value when it is set, else
the page protocol and host joined with port 8001 when a window exists,
else the literal localhost default. -/
theorem claim_C8_base_url (env : Option String) (w : Option WindowLocation) :
    (∀ v, env = some v → API_BASE_URL env w = v)
  ∧ (env = none → ∀ loc, w = some loc →
        API_BASE_URL env w = loc.protocol ++ "//" ++ loc.hostname ++ ":8001")
  ∧ (env = none → w = none → API_BASE_URL env w = "http://localhost:8001") := by
  refine ⟨?_, ?_, ?_⟩
  · intro v hv
    subst hv
    rfl
  · intro he loc hl
    subst he
    subst hl
    rfl
  · intro he hw
    subst he
    subst hw
    rfl

/-- Claim C8 witness: the claim theorem in a browser context on an https
page at example.com with no environment value set. -/
theorem claim_C8_witness :
    API_BASE_URL none (some (WindowLocation.mk "https:" "example.com"))
      = "https://example.com:8001" := by
  have h := (claim_C8_base_url none (some (WindowLocation.mk "https:" "example.com"))).2.1
    rfl (WindowLocation.mk "https:" "example.com") rfl
  rw [h]
  decide

/-- Claim C3: the optimistic round-trip for updateUserCourseProgress.
Given a cached progress entry for the (userId, courseId) key whose
sections field reads S0, dispatching the optimistic patch with sections
S1 makes the cached entry read S1 before the network call resolves; if
the call fails the whole cache is restored exactly (in particular the
entry reads S0 again); if it succeeds the patched cache is retained.
(The patch and undo machinery is library-provided and modelled from the
spec; the recipe and the failure handling are from lines 189 to 207 of
the source.) -/
theorem claim_C3_optimistic_roundtrip (userId courseId : String) (S0 S1 : JValue)
    (e0 : JFields) (cache : ProgressCache)
    (hentry : cacheGet cache (userId, courseId) = some e0)
    (hs0 : JFields.get e0 "sections" = some S0) :
    (∃ ep, cacheGet (updateUserCourseProgress_onQueryStarted userId courseId S1 cache).1
          (userId, courseId) = some ep
        ∧ JFields.get ep "sections" = some S1)
  ∧ updateUserCourseProgress_resolve userId courseId
        (updateUserCourseProgress_onQueryStarted userId courseId S1 cache).2 false
        (updateUserCourseProgress_onQueryStarted userId courseId S1 cache).1
      = cache
  ∧ (∃ ef, cacheGet (updateUserCourseProgress_resolve userId courseId
          (updateUserCourseProgress_onQueryStarted userId courseId S1 cache).2 false
          (updateUserCourseProgress_onQueryStarted userId courseId S1 cache).1)
          (userId, courseId) = some ef
        ∧ JFields.get ef "sections" = some S0)
  ∧ updateUserCourseProgress_resolve userId courseId
        (updateUserCourseProgress_onQueryStarted userId courseId S1 cache).2 true
        (updateUserCourseProgress_onQueryStarted userId courseId S1 cache).1
      = (updateUserCourseProgress_onQueryStarted userId courseId S1 cache).1 := by
  have hq : updateUserCourseProgress_onQueryStarted userId courseId S1 cache
      = (cacheSet cache (userId, courseId) (JFields.setField e0 "sections" S1), some e0) := by
    simp [updateUserCourseProgress_onQueryStarted, updateQueryData, hentry,
      updateUserCourseProgress_recipe]
  have hrevert : updateUserCourseProgress_resolve userId courseId (some e0) false
      (cacheSet cache (userId, courseId) (JFields.setField e0 "sections" S1)) = cache := by
    simp [updateUserCourseProgress_resolve, patchUndo, cacheSet_cacheSet,
      cacheSet_of_get_eq cache (userId, courseId) e0 hentry]
  refine ⟨?_, ?_, ?_, ?_⟩
  · simp only [hq]
    exact ⟨JFields.setField e0 "sections" S1,
      cacheGet_cacheSet_self cache (userId, courseId) e0 _ hentry,
      JFields.get_setField_self e0 "sections" S1⟩
  · simp only [hq]
    exact hrevert
  · simp only [hq]
    rw [hrevert]
    exact ⟨e0, hentry, hs0⟩
  · simp only [hq]
    rfl

/-- Claim C3 witness: the claim theorem at a one-entry cache whose entry
reads sections S0, patched to S1 and then reverted by a failure. -/
theorem claim_C3_witness :
    updateUserCourseProgress_resolve "u1" "c1"
        (updateUserCourseProgress_onQueryStarted "u1" "c1" (JValue.str "S1")
          [(("u1", "c1"), JFields.ofList [("sections", JValue.str "S0")])]).2 false
        (updateUserCourseProgress_onQueryStarted "u1" "c1" (JValue.str "S1")
          [(("u1", "c1"), JFields.ofList [("sections", JValue.str "S0")])]).1
      = [(("u1", "c1"), JFields.ofList [("sections", JValue.str "S0")])] :=
  (claim_C3_optimistic_roundtrip "u1" "c1" (JValue.str "S0") (JValue.str "S1")
      (JFields.ofList [("sections", JValue.str "S0")])
      [(("u1", "c1"), JFields.ofList [("sections", JValue.str "S0")])]
      (by decide) (by decide)).2.1

/-- Claim C7: when no cache entry exists for the (userId, courseId) key,
the optimistic patch is a no-op: the cache is unchanged, the patch
handle records nothing, and resolution (failure or success) leaves the
cache unchanged as well. -/
theorem claim_C7_patch_noop (userId courseId : String) (S1 : JValue) (cache : ProgressCache)
    (h : cacheGet cache (userId, courseId) = none) :
    (updateUserCourseProgress_onQueryStarted userId courseId S1 cache).1 = cache
  ∧ (updateUserCourseProgress_onQueryStarted userId courseId S1 cache).2 = none
  ∧ updateUserCourseProgress_resolve userId courseId
        (updateUserCourseProgress_onQueryStarted userId courseId S1 cache).2 false
        (updateUserCourseProgress_onQueryStarted userId courseId S1 cache).1 = cache
  ∧ updateUserCourseProgress_resolve userId courseId
        (updateUserCourseProgress_onQueryStarted userId courseId S1 cache).2 true
        (updateUserCourseProgress_onQueryStarted userId courseId S1 cache).1 = cache := by
  have hq : updateUserCourseProgress_onQueryStarted userId courseId S1 cache = (cache, none) := by
    simp [updateUserCourseProgress_onQueryStarted, updateQueryData, h]
  refine ⟨?_, ?_, ?_, ?_⟩ <;> simp [hq, updateUserCourseProgress_resolve, patchUndo]

/-- Claim C7 witness: the claim theorem at the empty cache. -/
theorem claim_C7_witness :
    (updateUserCourseProgress_onQueryStarted "u1" "c1" (JValue.str "S1") []).1 = [] :=
  (claim_C7_patch_noop "u1" "c1" (JValue.str "S1") [] (by decide)).1

/-- Claim C6, counterexample: the createStripePaymentIntent descriptor
carries the url /transactions/stripe/payment-intent with a leading
slash, not the catalog path transactions/stripe/payment-intent. -/
theorem claim_C6_counterexample :
    QueryArgs.urlOf (createStripePaymentIntent_query 50) = "/transactions/stripe/payment-intent"
  ∧ QueryArgs.urlOf (createStripePaymentIntent_query 50) ≠ "transactions/stripe/payment-intent" := by
  decide

/-- Claim C6 (amended): every operation of the endpoint registry builds
its request descriptor with exactly the method and path of the
operations catalog and declares exactly the listed tags — except
createStripePaymentIntent, whose url is /transactions/stripe/payment-intent
with a leading slash where the catalog row reads
transactions/stripe/payment-intent (equivalent after URL joining). -/
theorem claim_C6_registry_catalog :
    (∀ userId body, QueryArgs.urlOf (updateUser_query userId body) = "users/clerk/" ++ userId
      ∧ QueryArgs.effectiveMethod (updateUser_query userId body) = "PUT")
  ∧ updateUser_invalidatesTags = [Tag.mk TagType.Users none]
  ∧ (∀ category, QueryArgs.urlOf (getCourses_query category) = "courses"
      ∧ QueryArgs.effectiveMethod (getCourses_query category) = "GET"
      ∧ QueryArgs.paramsOf (getCourses_query category) = some [("category", category)])
  ∧ getCourses_providesTags = [Tag.mk TagType.Courses none]
  ∧ (∀ id, QueryArgs.urlOf (getCourse_query id) = "courses/" ++ id
      ∧ QueryArgs.effectiveMethod (getCourse_query id) = "GET"
      ∧ getCourse_providesTags id = [Tag.mk TagType.Courses (some id)])
  ∧ (∀ tid tname, QueryArgs.urlOf (createCourse_query tid tname) = "courses"
      ∧ QueryArgs.effectiveMethod (createCourse_query tid tname) = "POST")
  ∧ createCourse_invalidatesTags = [Tag.mk TagType.Courses none]
  ∧ (∀ courseId fd, QueryArgs.urlOf (updateCourse_query courseId fd) = "courses/" ++ courseId
      ∧ QueryArgs.effectiveMethod (updateCourse_query courseId fd) = "PUT"
      ∧ updateCourse_invalidatesTags courseId = [Tag.mk TagType.Courses (some courseId)])
  ∧ (∀ courseId, QueryArgs.urlOf (deleteCourse_query courseId) = "courses/" ++ courseId
      ∧ QueryArgs.effectiveMethod (deleteCourse_query courseId) = "DELETE")
  ∧ deleteCourse_invalidatesTags = [Tag.mk TagType.Courses none]
  ∧ (∀ c s ch fn ft, QueryArgs.urlOf (getUploadVideoUrl_query c s ch fn ft)
        = "courses/" ++ c ++ "/sections/" ++ s ++ "/chapters/" ++ ch ++ "/get-upload-url"
      ∧ QueryArgs.effectiveMethod (getUploadVideoUrl_query c s ch fn ft) = "POST")
  ∧ getUploadVideoUrl_tags = []
  ∧ (∀ userId, QueryArgs.urlOf (getTransactions_query userId) = "transactions?userId=" ++ userId
      ∧ QueryArgs.effectiveMethod (getTransactions_query userId) = "GET")
  ∧ getTransactions_tags = []
  ∧ (∀ amount, QueryArgs.urlOf (createStripePaymentIntent_query amount)
        = "/transactions/stripe/payment-intent"
      ∧ QueryArgs.effectiveMethod (createStripePaymentIntent_query amount) = "POST")
  ∧ createStripePaymentIntent_tags = []
  ∧ (∀ tr, QueryArgs.urlOf (createTransaction_query tr) = "transactions"
      ∧ QueryArgs.effectiveMethod (createTransaction_query tr) = "POST")
  ∧ createTransaction_tags = []
  ∧ (∀ userId, QueryArgs.urlOf (getUserEnrolledCourses_query userId)
        = "users/course-progress/" ++ userId ++ "/enrolled-courses"
      ∧ QueryArgs.effectiveMethod (getUserEnrolledCourses_query userId) = "GET")
  ∧ getUserEnrolledCourses_providesTags
      = [Tag.mk TagType.Courses none, Tag.mk TagType.UserCourseProgress none]
  ∧ (∀ userId courseId, QueryArgs.urlOf (getUserCourseProgress_query userId courseId)
        = "users/course-progress/" ++ userId ++ "/courses/" ++ courseId
      ∧ QueryArgs.effectiveMethod (getUserCourseProgress_query userId courseId) = "GET")
  ∧ getUserCourseProgress_providesTags = [Tag.mk TagType.UserCourseProgress none]
  ∧ (∀ userId courseId pd, QueryArgs.urlOf (updateUserCourseProgress_query userId courseId pd)
        = "users/course-progress/" ++ userId ++ "/courses/" ++ courseId
      ∧ QueryArgs.effectiveMethod (updateUserCourseProgress_query userId courseId pd) = "PUT")
  ∧ updateUserCourseProgress_invalidatesTags = [Tag.mk TagType.UserCourseProgress none] := by
  refine ⟨?_, rfl, ?_, rfl, ?_, ?_, rfl, ?_, ?_, rfl, ?_, rfl, ?_, rfl, ?_, rfl, ?_, rfl,
    ?_, rfl, ?_, rfl, ?_, rfl⟩ <;> intros <;>
    first
    | exact ⟨rfl, rfl, rfl⟩
    | exact ⟨rfl, rfl⟩
